import Mathlib

/-!
# LogStore statistics registry (`include/leveldb/statistics.h`)

A shallow embedding of the metric registry of the LSM engine's statistics
header: the two enumerations `Tickers` and `Histograms`, their name tables
`TickersNameMap` and `HistogramsNameMap`, the default bodies and default
arguments of the `Statistics` interface, and the ticker array of the
collector behind `CreateDBStatistics` (declared in the header, described in
the spec).

An unscoped C++ enumeration whose first enumerator has no initialiser (or
the initialiser `0`) numbers its enumerators 0, 1, 2, ... in declaration
order.  The embedding keeps the enumerators as constructors in source order
and takes the constructor index as the numeric value.
-/

namespace leveldb

/-- Enumeration `Tickers : uint32_t`, enumerators in declaration order
(the commented-out enumerators of the source are not part of it). -/
inductive Tickers where
  | TABLE_CACHE_HIT
  | TABLE_CACHE_MISS
  | MEMTABLE_HIT
  | MEMTABLE_MISS
  | NUMBER_KEYS_WRITTEN
  | NUMBER_KEYS_READ
  | NUMBER_KEYS_UPDATED
  | BYTES_WRITTEN
  | BYTES_READ
  | NO_FILE_CLOSES
  | NO_FILE_OPENS
  | NO_FILE_ERRORS
  | LEVEL_0_HIT
  | LEVEL_1_HIT
  | LEVEL_2_HIT
  | LEVEL_3_HIT
  | LEVEL_4_HIT
  | LEVEL_5_HIT
  | LEVEL_6_HIT
  | LEVEL_7_HIT
  | NUM_THROTTLED_WRITES
  | NUM_MEMTABLE_WAIT_WRITES
  | NUM_STALLED_WRITES
  | NUM_COMPACTIONS
  | NUM_READ_COMPACTIONS
  | NUM_WRITE_COMPACTIONS
  | SSD_CACHE_HITS
  | SSD_CACHE_MISSES
  | TICKER_ENUM_MAX
  deriving DecidableEq, Repr

/-- Numeric value of a `Tickers` enumerator: its position in the declaration. -/
def Tickers.val (t : Tickers) : Nat := t.toCtorIdx

/-- Enumeration `Histograms : uint32_t` (`DB_GET = 0`, then consecutive),
enumerators in declaration order. -/
inductive Histograms where
  | DB_GET
  | DB_WRITE
  | TABLE_SYNC_MICROS
  | COMPACTION_OUTFILE_SYNC_MICROS
  | READ_TABLE_FOOTER_MICROS
  | READ_TABLE_INDEX_MICROS
  | READ_TABLE_META_MICROS
  | TABLE_OPEN_IO_MICROS
  | READ_BLOCK_GET_MICROS
  | NUM_FILES_IN_SINGLE_COMPACTION
  | MEMTABLE_WAIT_MICROS
  | STALLED_WRITE_MICROS
  | MEMTABLE_INSERT_MICROS
  | WAL_APPEND_MICROS
  | FILES_PROBED_PER_READ
  | NUM_LEVELS_PROBED_PER_READ
  | MEMTABLE_FLUSH_MICROS
  | SSD_CACHE_INSERT_MICROS
  | SSD_CACHE_CHECK_KEY_MICROS
  | SSD_CACHE_LOOKUP_MICROS
  | SSD_CACHE_INSERT_ON_MISS_MICROS
  | BUILD_BATCH_GROUP_MICROS
  | TABLE_CACHE_GET_MICROS
  | VERSION_SET_GET_MICROS
  | MEMTABLE_GET_MICROS
  | IMM_MEMTABLE_GET_MICROS
  | MAYBE_SCHEDULE_COMPACTION_MICROS
  | GET_REF_STUFF_MICROS
  | GET_UNREF_STUFF_MICROS
  | GET_UPDATE_STATS_MICROS
  | GET_UNLOCK_MICROS
  | GET_LOCK_MICROS
  | HISTOGRAM_ENUM_MAX
  deriving DecidableEq, Repr

/-- Numeric value of a `Histograms` enumerator: its position in the declaration. -/
def Histograms.val (h : Histograms) : Nat := h.toCtorIdx

open Tickers Histograms

/-- The table `TickersNameMap`, entries in source order. -/
def TickersNameMap : List (Tickers × String) := [
  (TABLE_CACHE_HIT, "leveldb.tablecache.hit"),
  (TABLE_CACHE_MISS, "leveldb.tablecache.miss"),
  (MEMTABLE_HIT, "leveldb.memtable.hit"),
  (MEMTABLE_MISS, "leveldb.memtable.miss"),
  (NUMBER_KEYS_WRITTEN, "leveldb.number.keys.written"),
  (NUMBER_KEYS_READ, "leveldb.number.keys.read"),
  (NUMBER_KEYS_UPDATED, "leveldb.number.keys.updated"),
  (BYTES_WRITTEN, "leveldb.bytes.written"),
  (BYTES_READ, "leveldb.bytes.read"),
  (NO_FILE_CLOSES, "leveldb.no.file.closes"),
  (NO_FILE_OPENS, "leveldb.no.file.opens"),
  (NO_FILE_ERRORS, "leveldb.no.file.errors"),
  (LEVEL_0_HIT, "leveldb.level-0.hits"),
  (LEVEL_1_HIT, "leveldb.level-1.hits"),
  (LEVEL_2_HIT, "leveldb.level-2.hits"),
  (LEVEL_3_HIT, "leveldb.level-3.hits"),
  (LEVEL_4_HIT, "leveldb.level-4.hits"),
  (LEVEL_5_HIT, "leveldb.level-5.hits"),
  (LEVEL_6_HIT, "leveldb.level-6.hits"),
  (LEVEL_7_HIT, "leveldb.level-7.hits"),
  (NUM_THROTTLED_WRITES, "leveldb.no.throttled.writes"),
  (NUM_MEMTABLE_WAIT_WRITES, "leveldb.no.memtable-wait.writes"),
  (NUM_STALLED_WRITES, "leveldb.no.stalled.writes"),
  (NUM_COMPACTIONS, "leveldb.num.compactions"),
  (NUM_READ_COMPACTIONS, "leveldb.num.read.compactions"),
  (NUM_WRITE_COMPACTIONS, "leveldb.num.write.compactions"),
  (SSD_CACHE_HITS, "leveldb.num.ssd.cache.hits"),
  (SSD_CACHE_MISSES, "leveldb.num.ssd.cache.misses")]

/-- The table `HistogramsNameMap`, entries in source order. -/
def HistogramsNameMap : List (Histograms × String) := [
  (DB_GET, "leveldb.db.get.micros"),
  (DB_WRITE, "leveldb.db.write.micros"),
  (TABLE_SYNC_MICROS, "leveldb.table.sync.micros"),
  (COMPACTION_OUTFILE_SYNC_MICROS, "leveldb.compaction.outfile.sync.micros"),
  (READ_TABLE_FOOTER_MICROS, "leveldb.read.table.footer.micros"),
  (READ_TABLE_INDEX_MICROS, "leveldb.read.table.index.micros"),
  (READ_TABLE_META_MICROS, "leveldb.read.table.meta.micros"),
  (TABLE_OPEN_IO_MICROS, "leveldb.table.open.io.micros"),
  (READ_BLOCK_GET_MICROS, "leveldb.read.block.get.micros"),
  (NUM_FILES_IN_SINGLE_COMPACTION, "leveldb.numfiles.in.singlecompaction"),
  (MEMTABLE_WAIT_MICROS, "leveldb.memtable.wait.micros"),
  (STALLED_WRITE_MICROS, "leveldb.stalled.writes.micros"),
  (MEMTABLE_INSERT_MICROS, "leveldb.memtable.insert.micros"),
  (WAL_APPEND_MICROS, "leveldb.wal.append.micros"),
  (FILES_PROBED_PER_READ, "leveldb.files.probed.per.read"),
  (NUM_LEVELS_PROBED_PER_READ, "leveldb.levels.probed.per.read"),
  (MEMTABLE_FLUSH_MICROS, "leveldb.memtable.flush.micros"),
  (SSD_CACHE_INSERT_MICROS, "leveldb.ssd.cache.insert.micros"),
  (SSD_CACHE_CHECK_KEY_MICROS, "leveldb.ssd.cache.check.key.micros"),
  (SSD_CACHE_LOOKUP_MICROS, "leveldb.ssd.cache.lookup.micros"),
  (SSD_CACHE_INSERT_ON_MISS_MICROS, "leveldb.ssd.cache.insert.on.miss.micros"),
  (BUILD_BATCH_GROUP_MICROS, "leveldb.build.batch.group.micros"),
  (TABLE_CACHE_GET_MICROS, "leveldb.table.cache.get.micros"),
  (VERSION_SET_GET_MICROS, "leveldb.versionset.get.micros"),
  (MEMTABLE_GET_MICROS, "leveldb.memtable.get.micros"),
  (IMM_MEMTABLE_GET_MICROS, "leveldb.imm.memtable.get.micros"),
  (MAYBE_SCHEDULE_COMPACTION_MICROS, "leveldb.schedule.compaction.micros"),
  (GET_REF_STUFF_MICROS, "leveldb.get.ref.stuff.micros"),
  (GET_UNREF_STUFF_MICROS, "leveldb.get.unref.stuff.micros"),
  (GET_UPDATE_STATS_MICROS, "leveldb.get.update.stats.micros"),
  (GET_UNLOCK_MICROS, "leveldb.get.unlock.micros"),
  (GET_LOCK_MICROS, "leveldb.get.lock.micros")]

/-- Numeric ids of the entries of `TickersNameMap`, in table order. -/
def tickerIds : List Nat := TickersNameMap.map (fun e => e.1.val)

/-- Names of the entries of `TickersNameMap`, in table order. -/
def tickerNames : List String := TickersNameMap.map (fun e => e.2)

/-- Numeric ids of the entries of `HistogramsNameMap`, in table order. -/
def histogramIds : List Nat := HistogramsNameMap.map (fun e => e.1.val)

/-- Names of the entries of `HistogramsNameMap`, in table order. -/
def histogramNames : List String := HistogramsNameMap.map (fun e => e.2)

/-- Default body of `Statistics::HistEnabledForType(uint32_t type)`:
`return type < HISTOGRAM_ENUM_MAX;`. -/
def Statistics.HistEnabledForType (type : Nat) : Bool :=
  decide (type < HISTOGRAM_ENUM_MAX.val)

/-- Default body of `Statistics::ToString()`:
`return std::string("ToString(): not implemented");`.  The body does not read
the object, so the embedding is generic in the state `σ` of the derived
class that inherits it (`Unit` for a class without data members). -/
def Statistics.ToString {σ : Type} (_self : σ) : String :=
  "ToString(): not implemented"

/-- Arguments that `Statistics::recordTick` receives from a call site.  The
declaration is `recordTick(uint32_t tickerType, uint64_t count = 0)`: a call
that writes no second argument (`none`) passes the default argument of the
declaration. -/
def recordTick_args (tickerType : Nat) (count : Option Nat) : Nat × Nat :=
  match count with
  | some c => (tickerType, c)
  | none => (tickerType, 0)

/-- A call of the pure virtual `recordTick` on an object with state `self`,
written with or without the second argument; `impl` is the overrider of the
dynamic type of the object. -/
def Statistics.recordTickCall {σ : Type} (impl : σ → Nat → Nat → σ) (self : σ)
    (tickerType : Nat) (count : Option Nat) : σ :=
  impl self (recordTick_args tickerType count).1 (recordTick_args tickerType count).2

/-! ### Reading a report back

The spec describes the text of `ToString()` as lines that start with a
metric name followed by a colon.  These functions read such a text. -/

/-- Lines of a text, split at newline characters; `cur` holds the current
line reversed.  A final newline does not open another line. -/
def splitLinesAux : List Char → List Char → List (List Char)
  | [], cur => if cur.isEmpty then [] else [cur.reverse]
  | c :: cs, cur =>
      if c = '\n' then cur.reverse :: splitLinesAux cs []
      else splitLinesAux cs (c :: cur)

/-- Lines of a report. -/
def reportLines (out : String) : List String :=
  (splitLinesAux out.toList []).map String.mk

/-- Name on a report line: the text before the first colon. -/
def lineName (line : String) : String :=
  String.mk (line.toList.takeWhile (fun c => c != ':'))

/-- Names on the successive lines of a report. -/
def reportNames (out : String) : List String :=
  (reportLines out).map lineName

/-- A ticker line of the form `name: count`: after the name come a colon, a
blank and a decimal number. -/
def isTickerLine (line : String) : Bool :=
  match line.toList.dropWhile (fun c => c != ':') with
  | ':' :: ' ' :: ds => !ds.isEmpty && ds.all Char.isDigit
  | _ => false

/-- Shape of the report as the spec words it: one line per ticker, each of
the form `name: count`, and then one line per histogram, the names on
successive lines being the names of the two tables in table order. -/
def IsMetricsReport (out : String) : Prop :=
  reportNames out = tickerNames ++ histogramNames ∧
  ((reportLines out).take TICKER_ENUM_MAX.val).all isTickerLine = true

instance (out : String) : Decidable (IsMetricsReport out) := by
  unfold IsMetricsReport; infer_instance

/-! ### Names as the spec lists them -/

/-- A brace group of the spec, as in `leveldb.read.table.{footer,index,meta}.micros`:
one name per alternative. -/
def braces (pre : String) (alts : List String) (post : String) : List String :=
  alts.map (fun a => pre ++ a ++ post)

/-- Decimal digit `k` as a one-character string. -/
def digit (k : Nat) : String := String.singleton (Nat.digitChar k)

/-- The ticker name list of the spec (section 6), in the order it is given;
`leveldb.level-0.hits` through `leveldb.level-7.hits` are the eight names
with the digits 0 to 7. -/
def specTickerNames : List String :=
  ["leveldb.tablecache.hit", "leveldb.tablecache.miss", "leveldb.memtable.hit",
   "leveldb.memtable.miss", "leveldb.number.keys.written", "leveldb.number.keys.read",
   "leveldb.number.keys.updated", "leveldb.bytes.written", "leveldb.bytes.read",
   "leveldb.no.file.closes", "leveldb.no.file.opens", "leveldb.no.file.errors"]
  ++ (List.range 8).map (fun k => "leveldb.level-" ++ digit k ++ ".hits")
  ++ ["leveldb.no.throttled.writes", "leveldb.no.memtable-wait.writes",
      "leveldb.no.stalled.writes", "leveldb.num.compactions",
      "leveldb.num.read.compactions", "leveldb.num.write.compactions",
      "leveldb.num.ssd.cache.hits", "leveldb.num.ssd.cache.misses"]

/-- The histogram name list of the spec (section 6), in the order it is
given, brace groups expanded in place. -/
def specHistogramNames : List String :=
  ["leveldb.db.get.micros", "leveldb.db.write.micros", "leveldb.table.sync.micros",
   "leveldb.compaction.outfile.sync.micros"]
  ++ braces "leveldb.read.table." ["footer", "index", "meta"] ".micros"
  ++ ["leveldb.table.open.io.micros", "leveldb.read.block.get.micros",
      "leveldb.numfiles.in.singlecompaction"]
  ++ braces "leveldb.memtable." ["wait", "insert", "flush", "get"] ".micros"
  ++ ["leveldb.imm.memtable.get.micros", "leveldb.stalled.writes.micros",
      "leveldb.wal.append.micros", "leveldb.files.probed.per.read",
      "leveldb.levels.probed.per.read"]
  ++ braces "leveldb.ssd.cache." ["insert", "check.key", "lookup", "insert.on.miss"] ".micros"
  ++ ["leveldb.build.batch.group.micros", "leveldb.table.cache.get.micros",
      "leveldb.versionset.get.micros", "leveldb.schedule.compaction.micros"]
  ++ braces "leveldb.get." ["ref.stuff", "unref.stuff", "update.stats", "unlock", "lock"]
      ".micros"

/-- The enumerator `LEVEL_k_HIT` for a level `k` from 0 to 7 (`none` for any
other `k`: the enumeration has no such enumerator). -/
def LEVEL_HIT : Nat → Option Tickers
  | 0 => some LEVEL_0_HIT
  | 1 => some LEVEL_1_HIT
  | 2 => some LEVEL_2_HIT
  | 3 => some LEVEL_3_HIT
  | 4 => some LEVEL_4_HIT
  | 5 => some LEVEL_5_HIT
  | 6 => some LEVEL_6_HIT
  | 7 => some LEVEL_7_HIT
  | _ => none

/-- The two metric families. -/
inductive Family where
  | ticker
  | histogram
  deriving DecidableEq, Repr

/-- The two tables concatenated, tickers first: each entry is a name with
the family and numeric id it stands for. -/
def allMetrics : List (String × Family × Nat) :=
  TickersNameMap.map (fun e => (e.2, Family.ticker, e.1.val))
    ++ HistogramsNameMap.map (fun e => (e.2, Family.histogram, e.1.val))

/-- Every (family, id) pair that the concatenated tables give for a name. -/
def lookupName (name : String) : List (Family × Nat) :=
  (allMetrics.filter (fun e => e.1 == name)).map (fun e => e.2)

/-! ### The collector behind `CreateDBStatistics`

The header declares `std::shared_ptr<Statistics> CreateDBStatistics();` and
nothing more: the class it instantiates is not part of the sources.  Its
ticker array is modelled from section 4.2 of the spec. -/

/-- Modelled from the spec: the ticker array of the object returned by
`CreateDBStatistics`, whose class is missing from the sources.  Section 4.2:
"each counter is represented as an array of P independent 64-bit
sub-counters"; `tickers` holds one row of `P` shards per ticker id, the
array being of length `TICKER_MAX`. -/
structure DBStatistics where
  P : Nat
  tickers : List (List Nat)
  deriving DecidableEq, Repr

/-- Modelled from the spec: the factory `CreateDBStatistics`, whose body is
missing from the sources.  `P` is the shard count "chosen at construction";
a ticker value is "a 64-bit unsigned counter, initially zero". -/
def CreateDBStatistics (P : Nat) : DBStatistics :=
  ⟨P, List.replicate TICKER_ENUM_MAX.val (List.replicate P 0)⟩

/-- Modelled from the spec: `recordTick` of the missing class.  Section 4.2:
"hashes the calling thread identity to a shard and performs a relaxed atomic
add there", the add wrapping modulo 2^64; `thread` is the hash of the
calling thread.  An out-of-range id "becomes a silent no-op in release
builds" (section 4.4). -/
def DBStatistics.recordTick (s : DBStatistics) (thread tickerType count : Nat) :
    DBStatistics :=
  if tickerType < TICKER_ENUM_MAX.val then
    ⟨s.P, s.tickers.modify
      (fun row => row.modify (fun c => (c + count) % 2 ^ 64) (thread % s.P)) tickerType⟩
  else s

/-- Modelled from the spec: `getTickerCount` of the missing class.  Section
4.2: "sums all P shards with relaxed loads", the sum being a 64-bit unsigned
value; an out-of-range id reads 0. -/
def DBStatistics.getTickerCount (s : DBStatistics) (tickerType : Nat) : Nat :=
  match s.tickers[tickerType]? with
  | some row => row.sum % 2 ^ 64
  | none => 0

/-- Modelled from the spec: a run of `recordTick` calls on one ticker id,
each call given as the hash of its calling thread and its delta. -/
def DBStatistics.recordTicks (s : DBStatistics) (tickerType : Nat)
    (calls : List (Nat × Nat)) : DBStatistics :=
  calls.foldl (fun acc c => acc.recordTick c.1 tickerType c.2) s

/-- Shape of a ticker array: a positive shard count, one row per ticker id,
every row with `P` shards. -/
def DBStatistics.WF (s : DBStatistics) : Prop :=
  0 < s.P ∧ s.tickers.length = TICKER_ENUM_MAX.val ∧ ∀ row ∈ s.tickers, row.length = s.P

/-! ## Theorems -/


theorem sum_modify_add_mod (d : Nat) : ∀ (row : List Nat) (i : Nat), i < row.length →
    (row.modify (fun c => (c + d) % 2 ^ 64) i).sum % 2 ^ 64 = (row.sum + d) % 2 ^ 64 := by
  intro row
  induction row with
  | nil => intro i hi; simp at hi
  | cons x xs ih =>
    intro i hi
    cases i with
    | zero =>
      simp only [List.modify_zero_cons, List.sum_cons]
      omega
    | succ n =>
      have hn : n < xs.length := by simpa using hi
      have h := ih n hn
      simp only [List.modify_succ_cons, List.sum_cons]
      omega

theorem WF_create (P : Nat) (hP : 0 < P) : (CreateDBStatistics P).WF := by
  refine ⟨hP, by simp [CreateDBStatistics], ?_⟩
  intro row hrow
  simp only [CreateDBStatistics] at hrow ⊢
  rw [List.eq_of_mem_replicate hrow]
  simp

theorem WF_recordTick (s : DBStatistics) (hs : s.WF) (thread t d : Nat) :
    (s.recordTick thread t d).WF := by
  obtain ⟨hP, hlen, hrows⟩ := hs
  unfold DBStatistics.recordTick
  split
  · refine ⟨hP, by simpa using hlen, ?_⟩
    intro row hrow
    obtain ⟨k, hk, rfl⟩ := List.getElem_of_mem hrow
    simp only [List.getElem_modify]
    split
    · simp only [List.length_modify]
      exact hrows _ (List.getElem_mem _)
    · exact hrows _ (List.getElem_mem _)
  · exact ⟨hP, hlen, hrows⟩

theorem getTickerCount_recordTick_same (s : DBStatistics) (hs : s.WF) (thread t d : Nat)
    (ht : t < TICKER_ENUM_MAX.val) :
    (s.recordTick thread t d).getTickerCount t = (s.getTickerCount t + d) % 2 ^ 64 := by
  obtain ⟨hP, hlen, hrows⟩ := hs
  have htl : t < s.tickers.length := by rw [hlen]; exact ht
  have hrow : (s.tickers[t]).length = s.P := hrows _ (List.getElem_mem _)
  have hshard : thread % s.P < (s.tickers[t]).length := by
    rw [hrow]; exact Nat.mod_lt _ hP
  have hsum := sum_modify_add_mod d (s.tickers[t]) (thread % s.P) hshard
  unfold DBStatistics.recordTick DBStatistics.getTickerCount
  rw [if_pos ht]
  simp only [List.getElem?_modify_eq, List.getElem?_eq_getElem htl, Option.map_eq_map,
    Option.map_some']
  omega

theorem getTickerCount_recordTick_other (s : DBStatistics) (thread t d u : Nat)
    (hu : u ≠ t) :
    (s.recordTick thread t d).getTickerCount u = s.getTickerCount u := by
  unfold DBStatistics.recordTick DBStatistics.getTickerCount
  by_cases ht : t < TICKER_ENUM_MAX.val
  · rw [if_pos ht]
    simp only [List.getElem?_modify_ne _ _ (Ne.symm hu)]
  · rw [if_neg ht]

theorem getTickerCount_recordTicks (t : Nat) (ht : t < TICKER_ENUM_MAX.val) :
    ∀ (calls : List (Nat × Nat)) (s : DBStatistics), s.WF →
      (s.recordTicks t calls).getTickerCount t
          = (s.getTickerCount t + (calls.map (fun c => c.2)).sum) % 2 ^ 64
        ∧ ∀ u, u ≠ t → (s.recordTicks t calls).getTickerCount u = s.getTickerCount u := by
  intro calls
  induction calls with
  | nil =>
    intro s _
    refine ⟨?_, fun u _ => rfl⟩
    have hlt : s.getTickerCount t < 2 ^ 64 := by
      unfold DBStatistics.getTickerCount
      split
      · exact Nat.mod_lt _ (by norm_num)
      · norm_num
    simp only [DBStatistics.recordTicks, List.foldl_nil, List.map_nil, List.sum_nil,
      Nat.add_zero]
    exact (Nat.mod_eq_of_lt hlt).symm
  | cons c cs ih =>
    intro s hs
    have hstep := getTickerCount_recordTick_same s hs c.1 t c.2 ht
    obtain ⟨h1, h2⟩ := ih (s.recordTick c.1 t c.2) (WF_recordTick s hs c.1 t c.2)
    simp only [DBStatistics.recordTicks, List.foldl_cons, List.map_cons, List.sum_cons] at h1 h2 ⊢
    refine ⟨?_, ?_⟩
    · rw [h1, hstep]; omega
    · intro u hu
      rw [h2 u hu]
      exact getTickerCount_recordTick_other s c.1 t c.2 u hu

theorem getTickerCount_create (P u : Nat) : (CreateDBStatistics P).getTickerCount u = 0 := by
  unfold DBStatistics.getTickerCount CreateDBStatistics
  split
  · rename_i row hrow
    have hmem : row ∈ List.replicate TICKER_ENUM_MAX.val (List.replicate P 0) :=
      List.getElem?_mem hrow
    rw [List.eq_of_mem_replicate hmem]
    simp
  · rfl


theorem filter_key_length_le_one {β : Type} (name : String) :
    ∀ (l : List (String × β)), (l.map (fun e => e.1)).Nodup →
      (l.filter (fun e => e.1 == name)).length ≤ 1 := by
  intro l
  induction l with
  | nil => intro _; simp
  | cons a l ih =>
    intro hnd
    rw [List.map_cons, List.nodup_cons] at hnd
    obtain ⟨hnot, hrest⟩ := hnd
    by_cases ha : a.1 = name
    · have hnone : l.filter (fun e => e.1 == name) = [] := by
        rw [List.filter_eq_nil_iff]
        intro e he hname
        apply hnot
        have : e.1 = a.1 := by rw [ha]; simpa using hname
        rw [← this]
        exact List.mem_map_of_mem _ he
      simp [List.filter_cons, ha, hnone]
    · have := ih hrest
      simpa [List.filter_cons, ha] using this

theorem allMetrics_names_nodup : (allMetrics.map (fun e => e.1)).Nodup := by decide

theorem reportNames_two_lines :
    reportNames "leveldb.bytes.read: 7\nleveldb.db.get.micros: count=0\n"
      = ["leveldb.bytes.read", "leveldb.db.get.micros"] ∧
    isTickerLine "leveldb.bytes.read: 7" = true ∧
    isTickerLine "ToString(): not implemented" = false := by
  decide

/-! ## The claims -/

/-- C1: `TickersNameMap` is in lockstep with the `Tickers` enumeration: its
length is `TICKER_ENUM_MAX`, which is 28, its ids read in table order are
0, 1, ..., 27, the entry at every index `i` below `TICKER_ENUM_MAX` has the
id of numeric value `i`, and exactly one entry has that id. -/
theorem TickersNameMap_lockstep (i : Nat) (hi : i < TICKER_ENUM_MAX.val) :
    TickersNameMap.length = TICKER_ENUM_MAX.val ∧ TICKER_ENUM_MAX.val = 28 ∧
    tickerIds = List.range TICKER_ENUM_MAX.val ∧
    (TickersNameMap[i]?).map (fun e => e.1.val) = some i ∧
    (TickersNameMap.filter (fun e => e.1.val == i)).length = 1 := by
  have h28 : i < 28 := hi
  refine ⟨by decide, by decide, by decide, ?_, ?_⟩
  · interval_cases i <;> decide
  · interval_cases i <;> decide

theorem TickersNameMap_lockstep_witness :
    BYTES_WRITTEN.val < TICKER_ENUM_MAX.val ∧
    (TickersNameMap.length = TICKER_ENUM_MAX.val ∧ TICKER_ENUM_MAX.val = 28 ∧
     tickerIds = List.range TICKER_ENUM_MAX.val ∧
     (TickersNameMap[BYTES_WRITTEN.val]?).map (fun e => e.1.val) = some BYTES_WRITTEN.val ∧
     (TickersNameMap.filter (fun e => e.1.val == BYTES_WRITTEN.val)).length = 1) :=
  ⟨by decide, TickersNameMap_lockstep BYTES_WRITTEN.val (by decide)⟩

/-- C2: `HistogramsNameMap` is in lockstep with the `Histograms` enumeration:
its length is `HISTOGRAM_ENUM_MAX`, which is 32, its ids read in table order
are 0, 1, ..., 31, the entry at every index `i` below `HISTOGRAM_ENUM_MAX`
has the id of numeric value `i`, and exactly one entry has that id. -/
theorem HistogramsNameMap_lockstep (i : Nat) (hi : i < HISTOGRAM_ENUM_MAX.val) :
    HistogramsNameMap.length = HISTOGRAM_ENUM_MAX.val ∧ HISTOGRAM_ENUM_MAX.val = 32 ∧
    histogramIds = List.range HISTOGRAM_ENUM_MAX.val ∧
    (HistogramsNameMap[i]?).map (fun e => e.1.val) = some i ∧
    (HistogramsNameMap.filter (fun e => e.1.val == i)).length = 1 := by
  have h32 : i < 32 := hi
  refine ⟨by decide, by decide, by decide, ?_, ?_⟩
  · interval_cases i <;> decide
  · interval_cases i <;> decide

theorem HistogramsNameMap_lockstep_witness :
    READ_BLOCK_GET_MICROS.val < HISTOGRAM_ENUM_MAX.val ∧
    (HistogramsNameMap.length = HISTOGRAM_ENUM_MAX.val ∧ HISTOGRAM_ENUM_MAX.val = 32 ∧
     histogramIds = List.range HISTOGRAM_ENUM_MAX.val ∧
     (HistogramsNameMap[READ_BLOCK_GET_MICROS.val]?).map (fun e => e.1.val)
        = some READ_BLOCK_GET_MICROS.val ∧
     (HistogramsNameMap.filter (fun e => e.1.val == READ_BLOCK_GET_MICROS.val)).length = 1) :=
  ⟨by decide, HistogramsNameMap_lockstep READ_BLOCK_GET_MICROS.val (by decide)⟩

/-- C3: for every 32-bit unsigned id, the default `HistEnabledForType(id)`
is true exactly when `id < HISTOGRAM_ENUM_MAX`; it is true for the id of
every entry of `HistogramsNameMap`, false for `HISTOGRAM_ENUM_MAX` itself,
and false exactly for the ids from `HISTOGRAM_ENUM_MAX` upwards. -/
theorem HistEnabledForType_iff_lt (type : Nat) (_h32 : type < 2 ^ 32) :
    (Statistics.HistEnabledForType type = true ↔ type < HISTOGRAM_ENUM_MAX.val) ∧
    (∀ e ∈ HistogramsNameMap, Statistics.HistEnabledForType e.1.val = true) ∧
    Statistics.HistEnabledForType HISTOGRAM_ENUM_MAX.val = false ∧
    (Statistics.HistEnabledForType type = false ↔ HISTOGRAM_ENUM_MAX.val ≤ type) := by
  refine ⟨by simp [Statistics.HistEnabledForType], by decide, by decide, ?_⟩
  simp [Statistics.HistEnabledForType]

theorem HistEnabledForType_iff_lt_witness :
    (40 : Nat) < 2 ^ 32 ∧
    ((Statistics.HistEnabledForType 40 = true ↔ 40 < HISTOGRAM_ENUM_MAX.val) ∧
     (∀ e ∈ HistogramsNameMap, Statistics.HistEnabledForType e.1.val = true) ∧
     Statistics.HistEnabledForType HISTOGRAM_ENUM_MAX.val = false ∧
     (Statistics.HistEnabledForType 40 = false ↔ HISTOGRAM_ENUM_MAX.val ≤ 40)) :=
  ⟨by norm_num, HistEnabledForType_iff_lt 40 (by norm_num)⟩

/-- C4: the names of `TickersNameMap`, read in table order, are the 28 names
of the ticker name list of the spec in the order the spec gives them; the
two lists being equal, no other name occurs. -/
theorem tickerNames_eq_specTickerNames :
    tickerNames = specTickerNames ∧ tickerNames.length = 28 := by
  decide

/-- C5: the names of `HistogramsNameMap` are the 32 names of the histogram
name list of the spec (brace groups expanded), each exactly once: the two
lists are permutations of each other and free of duplicates, every spec
name is the name of an entry whose id is below `HISTOGRAM_ENUM_MAX`, and
every name of the table is a spec name. -/
theorem histogramNames_perm_specHistogramNames :
    histogramNames.Perm specHistogramNames ∧
    specHistogramNames.length = 32 ∧ histogramNames.length = 32 ∧
    specHistogramNames.Nodup ∧ histogramNames.Nodup ∧
    (∀ n ∈ specHistogramNames,
      ∃ e ∈ HistogramsNameMap, e.2 = n ∧ e.1.val < HISTOGRAM_ENUM_MAX.val) ∧
    (∀ e ∈ HistogramsNameMap, e.2 ∈ specHistogramNames) := by
  refine ⟨by decide, by decide, by decide, by decide, by decide, by decide, by decide⟩

/-- C6 (counterexample): a call `recordTick(BYTES_WRITTEN)` with no delta
passes the count 0, not 1, so it is not the call `recordTick(BYTES_WRITTEN, 1)`. -/
theorem recordTick_args_default_ne_one :
    recordTick_args BYTES_WRITTEN.val none = (7, 0) ∧
    recordTick_args BYTES_WRITTEN.val (some 1) = (7, 1) ∧
    recordTick_args BYTES_WRITTEN.val none ≠ recordTick_args BYTES_WRITTEN.val (some 1) := by
  decide

/-- C6 (amended): when `recordTick` is called with a ticker id and no
explicit delta, the delta it uses is 0: `recordTick(id)` is the same call as
`recordTick(id, 0)`, whatever class overrides the pure virtual. -/
theorem recordTick_args_default_zero (tickerType : Nat) :
    recordTick_args tickerType none = (tickerType, 0) ∧
    recordTick_args tickerType none = recordTick_args tickerType (some 0) ∧
    ∀ (σ : Type) (impl : σ → Nat → Nat → σ) (self : σ),
      Statistics.recordTickCall impl self tickerType none = impl self tickerType 0 := by
  refine ⟨rfl, rfl, ?_⟩
  intro σ impl self
  rfl

/-- C7 (counterexample): the text that `Statistics::ToString()` returns is
the single line `ToString(): not implemented`; the only name it carries is
`ToString()`, and it is not a report of the tickers and histograms. -/
theorem ToString_default_not_report :
    reportLines (Statistics.ToString ()) = ["ToString(): not implemented"] ∧
    reportNames (Statistics.ToString ()) = ["ToString()"] ∧
    ¬ IsMetricsReport (Statistics.ToString ()) := by
  decide

/-- C7 (amended): for every object, `Statistics::ToString()` as the base
class defines it returns the fixed text `ToString(): not implemented`,
which is one line and names no ticker and no histogram. -/
theorem ToString_default_text (σ : Type) (self : σ) :
    Statistics.ToString self = "ToString(): not implemented" ∧
    (reportLines (Statistics.ToString self)).length = 1 ∧
    (∀ n ∈ tickerNames ++ histogramNames, n ∉ reportNames (Statistics.ToString self)) := by
  refine ⟨rfl, ?_, ?_⟩
  · show (reportLines "ToString(): not implemented").length = 1
    decide
  · show ∀ n ∈ tickerNames ++ histogramNames, n ∉ reportNames "ToString(): not implemented"
    decide

/-- C8: on the object that `CreateDBStatistics` returns, for every ticker id
`t` below `TICKER_ENUM_MAX` and every finite sequence of `recordTick(t, d)`
calls, from any threads, `getTickerCount(t)` afterwards is the sum of the
deltas modulo 2^64, and every other ticker still reads 0. -/
theorem getTickerCount_recordTicks_create (P : Nat) (hP : 0 < P) (t : Nat)
    (ht : t < TICKER_ENUM_MAX.val) (calls : List (Nat × Nat)) :
    ((CreateDBStatistics P).recordTicks t calls).getTickerCount t
        = (calls.map (fun c => c.2)).sum % 2 ^ 64 ∧
    ∀ u, u ≠ t → ((CreateDBStatistics P).recordTicks t calls).getTickerCount u = 0 := by
  obtain ⟨h1, h2⟩ := getTickerCount_recordTicks t ht calls (CreateDBStatistics P)
    (WF_create P hP)
  refine ⟨?_, ?_⟩
  · rw [h1, getTickerCount_create, Nat.zero_add]
  · intro u hu
    rw [h2 u hu, getTickerCount_create]

theorem getTickerCount_recordTicks_create_witness :
    0 < 8 ∧ BYTES_WRITTEN.val < TICKER_ENUM_MAX.val ∧
    ((CreateDBStatistics 8).recordTicks BYTES_WRITTEN.val
        (List.replicate 10 (0, 1024))).getTickerCount BYTES_WRITTEN.val = 10240 ∧
    ∀ u, u ≠ BYTES_WRITTEN.val →
      ((CreateDBStatistics 8).recordTicks BYTES_WRITTEN.val
        (List.replicate 10 (0, 1024))).getTickerCount u = 0 :=
  ⟨by decide, by decide,
    (getTickerCount_recordTicks_create 8 (by decide) BYTES_WRITTEN.val (by decide)
      (List.replicate 10 (0, 1024))).1.trans (by decide),
    (getTickerCount_recordTicks_create 8 (by decide) BYTES_WRITTEN.val (by decide)
      (List.replicate 10 (0, 1024))).2⟩

/-- C9: the per-level hit tickers are contiguous and named by their level:
for every `k` from 0 to 7 the enumerator `LEVEL_k_HIT` exists, its numeric
value is `LEVEL_0_HIT + k`, it is below `TICKER_ENUM_MAX`, and the entry of
`TickersNameMap` at that value is `LEVEL_k_HIT` with the name `leveldb.level-`
followed by the decimal digit `k` followed by `.hits`. -/
theorem LEVEL_HIT_contiguous (k : Nat) (hk : k ≤ 7) :
    ∃ t, LEVEL_HIT k = some t ∧ t.val = LEVEL_0_HIT.val + k ∧
      t.val < TICKER_ENUM_MAX.val ∧
      TickersNameMap[LEVEL_0_HIT.val + k]?
        = some (t, "leveldb.level-" ++ digit k ++ ".hits") := by
  interval_cases k
  · exact ⟨LEVEL_0_HIT, by decide⟩
  · exact ⟨LEVEL_1_HIT, by decide⟩
  · exact ⟨LEVEL_2_HIT, by decide⟩
  · exact ⟨LEVEL_3_HIT, by decide⟩
  · exact ⟨LEVEL_4_HIT, by decide⟩
  · exact ⟨LEVEL_5_HIT, by decide⟩
  · exact ⟨LEVEL_6_HIT, by decide⟩
  · exact ⟨LEVEL_7_HIT, by decide⟩

theorem LEVEL_HIT_contiguous_witness :
    3 ≤ 7 ∧
    ∃ t, LEVEL_HIT 3 = some t ∧ t.val = LEVEL_0_HIT.val + 3 ∧
      t.val < TICKER_ENUM_MAX.val ∧
      TickersNameMap[LEVEL_0_HIT.val + 3]?
        = some (t, "leveldb.level-" ++ digit 3 ++ ".hits") :=
  ⟨by decide, LEVEL_HIT_contiguous 3 (by decide)⟩

/-- C10: metric names identify metrics uniquely: no two entries of
`TickersNameMap` have the same name, no two entries of `HistogramsNameMap`
have the same name, no name occurs in both tables, and looking a name up in
the concatenation of the two tables yields at most one (family, id) pair. -/
theorem lookupName_length_le_one (name : String) :
    tickerNames.Nodup ∧ histogramNames.Nodup ∧
    List.Disjoint tickerNames histogramNames ∧
    (tickerNames ++ histogramNames).Nodup ∧
    (lookupName name).length ≤ 1 := by
  refine ⟨by decide, by decide, ?_, by decide, ?_⟩
  · have h : (tickerNames ++ histogramNames).Nodup := by decide
    exact (List.nodup_append.mp h).2.2
  · unfold lookupName
    rw [List.length_map]
    exact filter_key_length_le_one name allMetrics allMetrics_names_nodup

end leveldb
